import Mathlib

/-!
Shallow embedding of the task-scheduling core of `crawlab-core`
(`src/services/task.go`), together with the external collaborator
contracts it depends on (queue broker, persistence store, runner control
surface).  Machine integers of the Go code are modelled as unbounded
`Int`/`Nat` (none of the verified operations can overflow in any claim's
range), fallible Go calls return `Option GoError` / `Except GoError`,
and the mutable fields of `TaskService` are threaded as explicit state.
-/

namespace Crawlab

/-- Errors of the system.  Modelled from the spec: the `constants` package
of the repository is not part of the sources given, so the error taxonomy
is taken from spec §7 (Stopped, EmptyValue, NoTasksAvailable, Forbidden,
AlreadyExists, NotExists, InvalidType, TaskError, CancelledError), plus the
distinguished `mongo.ErrNoDocuments` of the persistence collaborator and an
`other` constructor for uninterpreted collaborator failures. -/
inductive GoError where
  | stopped
  | emptyValue
  | noTasksAvailable
  | forbidden
  | alreadyExists
  | notExists
  | invalidType
  | taskError
  | taskCancelled
  | noDocuments
  | other (msg : String)
deriving DecidableEq, Repr

/-- Modelled from the spec: message strings of the error constants
(spec §7 names them after their text). -/
def GoError.message : GoError → String
  | .stopped => "stopped"
  | .emptyValue => "empty value"
  | .noTasksAvailable => "no tasks available"
  | .forbidden => "forbidden"
  | .alreadyExists => "already exists"
  | .notExists => "not exists"
  | .invalidType => "invalid type"
  | .taskError => "task error"
  | .taskCancelled => "task cancelled"
  | .noDocuments => "mongo: no documents in result"
  | .other m => m

/-- Model of `primitive.ObjectID` of the mongo driver: an abstract identifier with a
distinguished zero value (`primitive.NilObjectID`) and an injective hex
rendering.  Modelled as a wrapped natural number. -/
structure ObjectID where
  val : Nat
deriving DecidableEq, Repr

/-- Mirror of `id.IsZero()` of the mongo driver: whether `id` is the zero value. -/
def ObjectID.isZero (id : ObjectID) : Bool := id.val == 0

/-- Mirror of `id.Hex()` of the mongo driver: injective textual rendering of `id`,
used only to build queue names. -/
def ObjectID.hex (id : ObjectID) : String := toString id.val

/-- Mirror of `utils.IsObjectIdNull` of the repository (not under the given sources):
per the spec, "empty/zero means unassigned to a specific node". -/
def isObjectIdNull (id : ObjectID) : Bool := id.isZero

/-- The `model.Node` record: only its identifier is read by the scheduler. -/
structure Node where
  id : ObjectID
deriving DecidableEq, Repr

/-- The `model.Task` record: the fields the scheduler reads/writes (spec §3: identifier,
optional target-node identifier, status). -/
structure Task where
  id : ObjectID
  nodeId : ObjectID
  status : String
deriving DecidableEq, Repr

/-- Modelled from the spec: `constants.StatusPending` (the `constants`
package is not under the given sources; the scheduler only ever writes
Pending). -/
def statusPending : String := "pending"

/-- The `entity.TaskMessage` envelope: the ephemeral wire envelope carrying only the task
identifier (spec §3). -/
structure TaskMessage where
  id : ObjectID
deriving DecidableEq, Repr

/-- Mirror of `TaskMessage.ToString` (JSON serialization in Go).  The spec only
requires the codec to "round-trip identifier equality exactly" (§6); the
encoding is modelled as the identifier's decimal rendering.  Serialization
of this fixed shape cannot fail. -/
def TaskMessage.toStr (m : TaskMessage) : String := toString m.id.val

/-- Accumulator pass of the decimal parser underlying the envelope
decoder. -/
def parseDigitsAux : List Char → Nat → Option Nat
  | [], acc => some acc
  | c :: cs, acc =>
    if 48 ≤ c.toNat ∧ c.toNat ≤ 57 then
      parseDigitsAux cs (acc * 10 + (c.toNat - 48))
    else none

/-- Decimal parser over a string's characters: `none` on the empty string
or any non-digit character. -/
def parseDigits (s : String) : Option Nat :=
  match s.data with
  | [] => none
  | cs => parseDigitsAux cs 0

/-- Mirror of `json.Unmarshal` into a `TaskMessage`: inverse of `TaskMessage.toStr`;
a string that is not a well-formed envelope yields a deserialization
error. -/
def unmarshalTaskMessage (s : String) : Except GoError TaskMessage :=
  match parseDigits s with
  | some n => .ok ⟨⟨n⟩⟩
  | none => .error (.other ("json unmarshal error: " ++ s))

/-! ### Queue broker (redis collaborator)

Spec §4.2 / §6: named FIFO queues; `push` appends at the tail; `pop`
removes and returns the head immediately if present, otherwise returns an
empty result without blocking.  The Go client calls can also fail
(network-level errors); such failures are modelled by injectable per-queue
error tables, in which case the call returns the zero value `""` and the
queue is left unchanged. -/

/-- Replace (or insert) the binding of `q` in an association list of
queues. -/
def setQueue (qs : List (String × List String)) (q : String)
    (v : List String) : List (String × List String) :=
  match qs with
  | [] => [(q, v)]
  | (k, old) :: rest =>
    if k == q then (k, v) :: rest else (k, old) :: setQueue rest q v

/-- State of the queue broker: queue contents plus injected failures for
`LPop`/`RPush` per queue name. -/
structure Redis where
  queues : List (String × List String)
  failLPop : List (String × GoError)
  failRPush : List (String × GoError)
deriving Repr

/-- Mirror of `redis.RedisClient.LPop(q)`: head of `q` if present, else `("", nil)`;
an injected failure returns `("", err)` and leaves the state unchanged. -/
def Redis.lpop (r : Redis) (q : String) : String × Option GoError × Redis :=
  match r.failLPop.lookup q with
  | some e => ("", some e, r)
  | none =>
    match r.queues.lookup q with
    | some (m :: rest) => (m, none, { r with queues := setQueue r.queues q rest })
    | _ => ("", none, r)

/-- Mirror of `redis.RedisClient.RPush(q, m)`: append `m` at the tail of `q`;
an injected failure returns `err` and leaves the state unchanged. -/
def Redis.rpush (r : Redis) (q : String) (m : String) : Option GoError × Redis :=
  match r.failRPush.lookup q with
  | some e => (some e, r)
  | none =>
    (none,
      { r with queues := setQueue r.queues q ((r.queues.lookup q).getD [] ++ [m]) })

/-! ### Persistence collaborator

Modelled from the spec (§6): the `model` package of the repository is not
under the given sources.  `getById(id) -> Task | NotFoundError` with "no
such record" as the distinguished recoverable condition (`noDocuments`),
`insert(task)` and `update(task)`.  Uninterpreted lookup failures are modelled by
an injectable per-identifier error table. -/

/-- Replace the record bound to `id` in an association list of records. -/
def setRecord (rs : List (ObjectID × Task)) (id : ObjectID) (t : Task) :
    List (ObjectID × Task) :=
  match rs with
  | [] => []
  | (k, old) :: rest =>
    if k == id then (k, t) :: rest else (k, old) :: setRecord rest id t

/-- State of the persistence store: records keyed by identifier plus
injected uninterpreted lookup failures. -/
structure Store where
  records : List (ObjectID × Task)
  failGet : List (ObjectID × GoError)
deriving Repr

/-- Modelled from the spec: `model.TaskService.GetById(id)` — the stored
task, or `mongo.ErrNoDocuments` when no record has that identifier, or an
injected uninterpreted failure. -/
def Store.getById (st : Store) (id : ObjectID) : Except GoError Task :=
  match st.failGet.lookup id with
  | some e => .error e
  | none =>
    match st.records.lookup id with
    | some t => .ok t
    | none => .error .noDocuments

/-- Modelled from the spec: `t.Add()` — insert a new record for `t`. -/
def Store.add (st : Store) (t : Task) : Option GoError × Store :=
  (none, { st with records := st.records ++ [(t.id, t)] })

/-- Modelled from the spec: `t.Save()` — update the existing record of
`t`'s identifier in place (no duplicate key is created). -/
def Store.save (st : Store) (t : Task) : Option GoError × Store :=
  (none, { st with records := setRecord st.records t.id t })

/-! ### Task runner (external control surface)

`task_runner.go` is not under the given sources; per the spec (§6) the
scheduler only consumes `run()` (blocking, terminating with success, a
task-level error, a cancellation, or an unknown failure), `cancel()` and a
log query.  A runner is modelled by its identifier and the oracle results
of those calls. -/

/-- A `*TaskRunner` handle as the scheduler sees it: its bound task
identifier (`r.tid`), the outcome its blocking `Run` terminates with, the
result of its `Cancel` control, and the result of its log query. -/
structure TaskRunner where
  tid : ObjectID
  runResult : Option GoError
  cancelResult : Option GoError
  findResult : Except GoError (List String)
deriving Repr

/-- The `TaskRunnerOptions` argument of `NewTaskRunner`. -/
structure TaskRunnerOptions where
  taskId : ObjectID
deriving DecidableEq, Repr

/-! ### The task service (`src/services/task.go`)

The mutable fields of the Go `TaskService` struct become an explicit state
record; the `sync.Map` runner pool becomes an association list.  Keys of a
Go `sync.Map` are `interface\x7b\x7d` values compared by `==`, under which
values of different dynamic types are never equal; `Run` (task.go line
194) stores entries under a `primitive.ObjectID` key while `getTaskRunner`
(line 256) looks entries up under a `string` key, so the pool key type is
the tagged sum of the two. -/

/-- A key of the `runners` pool: the dynamic type and value of the
`interface\x7b\x7d` key stored in the `sync.Map`. -/
inductive PoolKey where
  | oid (id : ObjectID)
  | str (s : String)
deriving DecidableEq, Repr

/-- The `TaskServiceOptions` struct (task.go lines 28-33). -/
structure TaskServiceOptions where
  isMaster : Bool
  maxRunners : Int
  pollWaitSeconds : Int
  node : Option Node
deriving DecidableEq, Repr

/-- The `TaskService` struct (task.go lines 63-68): occupancy counter,
runner pool, active flag and options. -/
structure TaskService where
  runnersCount : Int
  runners : List (PoolKey × TaskRunner)
  active : Bool
  opts : TaskServiceOptions
deriving Repr

/-- Mirror of `NewTaskService` (task.go lines 35-61): normalizes absent options to a
non-master default and zero `MaxRunners` / `PollWaitSeconds` to 8 / 5, and
constructs the service with an empty pool and a zero counter. -/
def newTaskService (options : Option TaskServiceOptions) : TaskService :=
  let options := options.getD ⟨false, 0, 0, none⟩
  let options :=
    if options.maxRunners == 0 then { options with maxRunners := 8 } else options
  let options :=
    if options.pollWaitSeconds == 0 then { options with pollWaitSeconds := 5 }
    else options
  { runnersCount := 0, runners := [], active := false, opts := options }

/-- The external world the service calls into: the queue broker, the
persistence store, and the `NewTaskRunner` constructor (runner construction
is repo code outside the given sources, so its result is an oracle of the
world). -/
structure World where
  redis : Redis
  store : Store
  mkRunner : TaskRunnerOptions → Except GoError TaskRunner

/-- Mirror of `TaskService.saveTask` (task.go lines 270-298): normalize an empty
status to Pending, set it on the task, probe the store by the task's
identifier; on `ErrNoDocuments` insert (`t.Add`), on any other error return
it unchanged, on success update (`t.Save`). -/
def TaskService.saveTask (t : Task) (status : String) (st : Store) :
    Option GoError × Store :=
  let status := if status == "" then statusPending else status
  let t' := { t with status := status }
  match st.getById t.id with
  | .error .noDocuments => st.add t'
  | .error e => (some e, st)
  | .ok _ => st.save t'

/-- The destination-queue selection of `Assign` (task.go lines 133-139):
the shared queue when the task's target node identifier is null, else that
node's private queue. -/
def assignQueue (t : Task) : String :=
  if isObjectIdNull t.nodeId then "tasks:public"
  else "tasks:node:" ++ t.nodeId.hex

/-- Mirror of `TaskService.Assign` (task.go lines 116-152): forbidden unless master;
serialize the task-identifier envelope; route to the queue selected by
`assignQueue`; `RPush`; then persist the task as Pending via `saveTask`. -/
def TaskService.assign (s : TaskService) (t : Task) (w : World) :
    Option GoError × World :=
  if !s.opts.isMaster then (some .forbidden, w)
  else
    let msg : TaskMessage := ⟨t.id⟩
    let msgStr := msg.toStr
    let queue := assignQueue t
    match w.redis.rpush queue msgStr with
    | (some e, r') => (some e, { w with redis := r' })
    | (none, r') =>
      match TaskService.saveTask t statusPending w.store with
      | (some e, st') => (some e, { w with redis := r', store := st' })
      | (none, st') => (none, { w with redis := r', store := st' })

/-- Lines 174-191 of `TaskService.Fetch`, after a message `msg` has been
obtained from the queues: empty message fails with NoTasksAvailable,
otherwise the envelope is deserialized and the full task record is loaded
by its identifier, propagating either failure. -/
def TaskService.fetchDecode (msg : String) (st : Store) : Except GoError Task :=
  if msg == "" then .error .noTasksAvailable
  else
    match unmarshalTaskMessage msg with
    | .error e => .error e
    | .ok tMsg =>
      match st.getById tMsg.id with
      | .error e => .error e
      | .ok t => .ok t

/-- Mirror of `TaskService.Fetch` (task.go lines 154-192): if the service has a node,
`LPop` the node's private queue; if the resulting message is empty, clear
the error and `LPop` the public queue, propagating only the public pop's
failure; then decode per `fetchDecode`. -/
def TaskService.fetch (s : TaskService) (w : World) :
    Except GoError Task × World :=
  let step1 : String × Option GoError × Redis :=
    match s.opts.node with
    | some node => w.redis.lpop ("tasks:node:" ++ node.id.hex)
    | none => ("", none, w.redis)
  match step1 with
  | (msg0, _nodeErr, redis1) =>
    if msg0 == "" then
      match redis1.lpop "tasks:public" with
      | (_, some e, redis2) => (.error e, { w with redis := redis2 })
      | (msg, none, redis2) =>
        (TaskService.fetchDecode msg w.store, { w with redis := redis2 })
    else
      (TaskService.fetchDecode msg0 w.store, { w with redis := redis1 })

/-- Mirror of `TaskService.Run` (task.go lines 194-231).  The parameter has Go type
`primitive.ObjectID`, so the pool load and store both use the key
`PoolKey.oid taskId`.  If an entry is already present the call fails with
AlreadyExists before constructing anything; otherwise `NewTaskRunner` is
called (its failure propagated), the runner is stored in the pool, the
counter is incremented, and the runner's blocking `Run` is launched on a
separate goroutine (modelled by `runnerGoroutine` below); `run` itself
returns once the runner is registered. -/
def TaskService.run (s : TaskService) (taskId : ObjectID)
    (mk : Except GoError TaskRunner) : Option GoError × TaskService :=
  if (s.runners.lookup (PoolKey.oid taskId)).isSome then
    (some .alreadyExists, s)
  else
    match mk with
    | .error e => (some e, s)
    | .ok r =>
      (none, { s with runners := (PoolKey.oid taskId, r) :: s.runners,
                      runnersCount := s.runnersCount + 1 })

/-- The body of the goroutine spawned by `Run` (task.go lines 213-228): it
waits for the runner's blocking `Run` to terminate and logs the outcome,
distinguishing a task-level error, a cancellation, an unknown failure and
success.  It performs no mutation of the service state: the returned
service is the input service unchanged (no counter decrement, no pool
entry removal), and the log lines are the only effect. -/
def TaskService.runnerGoroutine (s : TaskService) (r : TaskRunner) :
    TaskService × List String :=
  match r.runResult with
  | some .taskError =>
    (s, ["task (_id=" ++ r.tid.hex ++ ") finished with error: "
          ++ GoError.taskError.message])
  | some .taskCancelled =>
    (s, ["task (_id=" ++ r.tid.hex ++ ") was cancelled"])
  | some e =>
    (s, ["task (_id=" ++ r.tid.hex ++ ") finished with unknown error: "
          ++ e.message])
  | none => (s, ["task (_id=" ++ r.tid.hex ++ ") finished"])

/-- Mirror of `TaskService.getTaskRunner` (task.go lines 256-268).  The parameter has
Go type `string`, so the pool load uses the key `PoolKey.str taskId`: absent
entries fail with NotExists.  The dynamic type switch of lines 261-266
(InvalidType on a non-runner entry) is statically satisfied here because
the pool's value type is `TaskRunner`. -/
def TaskService.getTaskRunner (s : TaskService) (taskId : String) :
    Except GoError TaskRunner :=
  match s.runners.lookup (PoolKey.str taskId) with
  | none => .error .notExists
  | some r => .ok r

/-- Mirror of `TaskService.Cancel` (task.go lines 233-242): look up the live pool
entry by the string identifier, propagating its failure; otherwise delegate
to the runner's `Cancel`, propagating its failure. -/
def TaskService.cancel (s : TaskService) (taskId : String) : Option GoError :=
  match s.getTaskRunner taskId with
  | .error e => some e
  | .ok r => r.cancelResult

/-- Mirror of `TaskService.FindLogs` (task.go lines 244-254): look up the live pool
entry by the string identifier, propagating its failure; otherwise delegate
to the runner's log query. -/
def TaskService.findLogs (s : TaskService) (taskId : String)
    (_pattern : String) (_skip _size : Int) : Except GoError (List String) :=
  match s.getTaskRunner taskId with
  | .error e => .error e
  | .ok r => r.findResult

/-- Mirror of `TaskService.Close` (task.go lines 112-114): flip the active flag. -/
def TaskService.close (s : TaskService) : TaskService :=
  { s with active := false }

/-- Outcome of one iteration of the poll loop in `TaskService.Init`
(task.go lines 74-109): either the loop returns an error to the caller of
`Init` (`stop`), or it proceeds to the next iteration (`next`). -/
inductive LoopOutcome where
  | stop (e : GoError)
  | next
deriving DecidableEq, Repr

/-- One iteration of the poll loop of `TaskService.Init` (task.go lines
74-109).  The two active-flag checks around the sleep both read the same
state here (the sleep has no modelled effect).  When the occupancy counter
has reached the `MaxRunners` ceiling the iteration is skipped before any
fetch.  A fetch failure is logged unless it is NoTasksAvailable and the
loop continues; a fetched task with a zero identifier stops the loop with
EmptyValue; otherwise `run` is invoked, a failure of which is logged, and
the loop continues.  Returns the outcome, the service and world states
after the iteration, and the log lines emitted by it. -/
def TaskService.initStep (s : TaskService) (w : World) :
    LoopOutcome × TaskService × World × List String :=
  if !s.active then (.stop .stopped, s, w, [])
  else if s.runnersCount ≥ s.opts.maxRunners then (.next, s, w, [])
  else
    match s.fetch w with
    | (.error e, w') =>
      if e == .noTasksAvailable then (.next, s, w', [])
      else (.next, s, w', ["fetch task error: " ++ e.message])
    | (.ok t, w') =>
      if t.id.isZero then (.stop .emptyValue, s, w', [])
      else
        match s.run t.id (w'.mkRunner ⟨t.id⟩) with
        | (some e, s') => (.next, s', w', ["run task error: " ++ e.message])
        | (none, s') => (.next, s', w', [])

/-! ### Concrete fixtures

Concrete services, runners, tasks and worlds used to evaluate the
definitions on explicit inputs. -/

/-- A `NewTaskRunner` oracle that always succeeds, binding the runner to
the requested identifier; its `Run` terminates successfully. -/
def mkRunnerOk : TaskRunnerOptions → Except GoError TaskRunner :=
  fun o => .ok ⟨o.taskId, none, none, .ok []⟩

/-- A broker with no queues and no injected failures. -/
def emptyRedis : Redis := ⟨[], [], []⟩

/-- A store with no records and no injected failures. -/
def emptyStore : Store := ⟨[], []⟩

/-- A world with empty broker and store. -/
def wEmpty : World := ⟨emptyRedis, emptyStore, mkRunnerOk⟩

/-- The service produced by `NewTaskService(nil)`: worker role, ceiling 8,
poll interval 5, no node identity. -/
def svc0 : TaskService := newTaskService none

/-- The service `svc0` with the poll loop active. -/
def svcA : TaskService := { svc0 with active := true }

/-- A master-role service. -/
def svcM : TaskService := ⟨0, [], false, ⟨true, 8, 5, none⟩⟩

/-- A worker service bound to the node with identifier 3. -/
def svcN3 : TaskService := ⟨0, [], true, ⟨false, 8, 5, some ⟨⟨3⟩⟩⟩⟩

/-- An active service whose occupancy counter has reached the ceiling. -/
def svcFull : TaskService := ⟨8, [], true, ⟨false, 8, 5, none⟩⟩

/-- A task with identifier 5, no target node, status Pending. -/
def sampleTask : Task := ⟨⟨5⟩, ⟨0⟩, statusPending⟩

/-- A (malformed) task record whose identifier is the zero value. -/
def taskZero : Task := ⟨⟨0⟩, ⟨0⟩, statusPending⟩

/-- A task with identifier 6 targeted at node 4, with an empty status. -/
def taskB : Task := ⟨⟨6⟩, ⟨4⟩, ""⟩

/-- A successfully-terminating runner bound to identifier 1. -/
def runnerOne : TaskRunner := ⟨⟨1⟩, none, none, .ok []⟩

/-- The service state after `svc0` admits identifier 1. -/
def svcAfterRunnerOne : TaskService := (svc0.run ⟨1⟩ (.ok runnerOne)).2

/-- A live runner bound to identifier 7 whose `Cancel` succeeds. -/
def runnerSeven : TaskRunner := ⟨⟨7⟩, none, none, .ok []⟩

/-- The service state after `svc0` admits identifier 7. -/
def svcSeven : TaskService := (svc0.run ⟨7⟩ (.ok runnerSeven)).2

/-- A runner bound to identifier 2. -/
def runnerTwo : TaskRunner := ⟨⟨2⟩, none, none, .ok []⟩

/-- A world whose broker holds message "5" on node 3's private queue and
message "9" on the shared queue, with task 5 in the store. -/
def wNodePub : World :=
  ⟨⟨[("tasks:node:3", ["5"]), ("tasks:public", ["9"])], [], []⟩,
   ⟨[(⟨5⟩, sampleTask)], []⟩, mkRunnerOk⟩

/-- A world whose shared queue holds a message resolving to the zero-id
task record. -/
def wZero : World :=
  ⟨⟨[("tasks:public", ["0"])], [], []⟩, ⟨[(⟨0⟩, taskZero)], []⟩, mkRunnerOk⟩

/-- A world whose shared queue holds a message resolving to task 5. -/
def wGood : World :=
  ⟨⟨[("tasks:public", ["5"])], [], []⟩, ⟨[(⟨5⟩, sampleTask)], []⟩, mkRunnerOk⟩

/-- A world whose broker rejects pushes to the shared queue. -/
def wFailPush : World :=
  ⟨⟨[], [], [("tasks:public", .other "net down")]⟩, emptyStore, mkRunnerOk⟩

/-- A world whose broker fails pops from node 3's private queue. -/
def wFailNodePop : World :=
  ⟨⟨[], [("tasks:node:3", .other "conn reset")], []⟩, emptyStore, mkRunnerOk⟩

/-- A store already holding a record for identifier 5. -/
def stHas : Store := ⟨[(⟨5⟩, sampleTask)], []⟩

/-- A store whose lookup of identifier 5 fails with an uninterpreted error. -/
def stErr : Store := ⟨[], [(⟨5⟩, .other "db down")]⟩

/-! ### Helper lemmas on the association-list primitives -/

/-- Looking up the key just set by `setQueue` yields the new value. -/
theorem lookup_setQueue_self (qs : List (String × List String)) (q : String)
    (v : List String) : List.lookup q (setQueue qs q v) = some v := by
  induction qs with
  | nil => simp [setQueue, List.lookup]
  | cons p rest ih =>
    obtain ⟨k, old⟩ := p
    by_cases hk : k = q
    · subst hk; simp [setQueue, List.lookup]
    · have h1 : (k == q) = false := beq_eq_false_iff_ne.mpr hk
      have h2 : (q == k) = false := beq_eq_false_iff_ne.mpr (Ne.symm hk)
      simp [setQueue, List.lookup, h1, h2, ih]

/-- Updating via `setQueue` at `q` does not change the binding of any other key. -/
theorem lookup_setQueue_ne (qs : List (String × List String)) (q q' : String)
    (v : List String) (h : q' ≠ q) :
    List.lookup q' (setQueue qs q v) = List.lookup q' qs := by
  have hq : (q' == q) = false := beq_eq_false_iff_ne.mpr h
  induction qs with
  | nil => simp [setQueue, List.lookup, hq]
  | cons p rest ih =>
    obtain ⟨k, old⟩ := p
    by_cases hk : k = q
    · subst hk
      simp [setQueue, List.lookup, hq]
    · have h1 : (k == q) = false := beq_eq_false_iff_ne.mpr hk
      simp only [setQueue, h1, Bool.false_eq_true, if_false, List.lookup]
      cases hq' : (q' == k) with
      | true => rfl
      | false => exact ih

/-- Appending a fresh binding at the tail makes it the lookup result when
the key was previously absent. -/
theorem lookup_append_single (l : List (ObjectID × Task)) (k : ObjectID)
    (v : Task) (h : List.lookup k l = none) :
    List.lookup k (l ++ [(k, v)]) = some v := by
  induction l with
  | nil => simp [List.lookup]
  | cons p rest ih =>
    obtain ⟨a, b⟩ := p
    simp only [List.lookup, List.cons_append] at h ⊢
    cases hk : (k == a) with
    | true => rw [hk] at h; simp at h
    | false => rw [hk] at h; exact ih h

/-- Replacing a present binding with `setRecord` makes the new value the
lookup result. -/
theorem lookup_setRecord_of_some (rs : List (ObjectID × Task))
    (id : ObjectID) (t t0 : Task) (h : List.lookup id rs = some t0) :
    List.lookup id (setRecord rs id t) = some t := by
  induction rs with
  | nil => simp [List.lookup] at h
  | cons p rest ih =>
    obtain ⟨a, b⟩ := p
    simp only [List.lookup] at h
    by_cases ha : a = id
    · subst ha
      simp [setRecord, List.lookup]
    · have h1 : (a == id) = false := beq_eq_false_iff_ne.mpr ha
      have h2 : (id == a) = false := beq_eq_false_iff_ne.mpr (Ne.symm ha)
      rw [h2] at h
      simp only [setRecord, h1, Bool.false_eq_true, if_false, List.lookup, h2]
      exact ih h

/-- Updating via `setRecord` never changes the number of records (it replaces in
place). -/
theorem length_setRecord (rs : List (ObjectID × Task)) (id : ObjectID)
    (t : Task) : (setRecord rs id t).length = rs.length := by
  induction rs with
  | nil => rfl
  | cons p rest ih =>
    obtain ⟨a, b⟩ := p
    by_cases ha : a = id
    · subst ha; simp [setRecord]
    · have h1 : (a == id) = false := beq_eq_false_iff_ne.mpr ha
      simp [setRecord, h1, ih]

/-- A per-node queue name is never the shared queue name (they differ at
character 6). -/
theorem tasksNode_ne_public (str : String) :
    ("tasks:node:" ++ str) ≠ "tasks:public" := by
  intro h
  have hd : ("tasks:node:" ++ str).data = "tasks:public".data :=
    congrArg String.data h
  rw [String.data_append] at hd
  have h6 := congrArg (fun l => l.get? 6) hd
  simp only at h6
  rw [List.get?_append (by decide)] at h6
  revert h6
  decide

/-- After a clean probe (no injected lookup failure), `saveTask` reports
success and the store holds the task under its identifier with the
normalized status, whether the record was inserted or updated. -/
theorem saveTask_clean (t : Task) (status : String) (st : Store)
    (hf : List.lookup t.id st.failGet = none) :
    (TaskService.saveTask t status st).1 = none ∧
    List.lookup t.id (TaskService.saveTask t status st).2.records
      = some { t with status := if status == "" then statusPending else status } := by
  unfold TaskService.saveTask
  simp only [Store.getById, hf]
  cases hlk : List.lookup t.id st.records with
  | none =>
    refine ⟨?_, ?_⟩
    · simp [hlk, Store.add]
    · simp only [hlk, Store.add]
      exact lookup_append_single st.records t.id _ hlk
  | some t0 =>
    refine ⟨?_, ?_⟩
    · simp [hlk, Store.save]
    · simp only [hlk, Store.save]
      exact lookup_setRecord_of_some st.records t.id _ t0 hlk

/-! ### Claim theorems -/

/-- C1: after a successful `Run(T)` the pool holds a live entry for `T`,
and while that entry is live every subsequent `Run(T)` — whatever runner
construction it would use — fails with AlreadyExists and returns the
service state unchanged: no runner is created, no pool entry added, and
the occupancy counter is untouched. -/
theorem run_duplicate_rejected (s : TaskService) (taskId : ObjectID)
    (mk : Except GoError TaskRunner) (s' : TaskService)
    (h : s.run taskId mk = (none, s')) :
    (List.lookup (PoolKey.oid taskId) s'.runners).isSome = true ∧
    ∀ mk', s'.run taskId mk' = (some .alreadyExists, s') := by
  cases hlk : List.lookup (PoolKey.oid taskId) s.runners with
  | some r => simp [TaskService.run, hlk] at h
  | none =>
    cases mk with
    | error e => simp [TaskService.run, hlk] at h
    | ok r =>
      simp only [TaskService.run, hlk, Option.isSome_none, Bool.false_eq_true,
        if_false, Prod.mk.injEq, true_and] at h
      subst h
      constructor
      · simp [List.lookup]
      · intro mk'
        simp [TaskService.run, List.lookup]

/-- C1 witness: in the state reached by admitting identifier 2 into the
fresh service, the pool entry for 2 is live and a second `Run(2)` fails
with AlreadyExists leaving the state unchanged. -/
theorem run_duplicate_rejected_witness :
    (List.lookup (PoolKey.oid ⟨2⟩)
      ((svc0.run ⟨2⟩ (.ok runnerTwo)).2).runners).isSome = true ∧
    ((svc0.run ⟨2⟩ (.ok runnerTwo)).2).run ⟨2⟩ (.ok runnerTwo)
      = (some .alreadyExists, (svc0.run ⟨2⟩ (.ok runnerTwo)).2) := by
  have h := run_duplicate_rejected svc0 ⟨2⟩ (.ok runnerTwo)
    (svc0.run ⟨2⟩ (.ok runnerTwo)).2 rfl
  exact ⟨h.1, h.2 (.ok runnerTwo)⟩

/-- C4: the claim expects the occupancy counter to be decremented and the
pool entry removed when a runner terminates, but the goroutine body spawned
by `Run` (task.go lines 213-228) only logs the outcome: for every service
state and runner it returns the state unchanged, and concretely, after
admitting identifier 1 and letting its runner terminate successfully, the
counter still reads 1 and the pool entry for 1 is still live. -/
theorem runnerGoroutine_performs_no_cleanup :
    (∀ (s : TaskService) (r : TaskRunner),
      (TaskService.runnerGoroutine s r).1 = s) ∧
    (svc0.run ⟨1⟩ (.ok runnerOne)).1 = none ∧
    svcAfterRunnerOne.runnersCount = 1 ∧
    (TaskService.runnerGoroutine svcAfterRunnerOne runnerOne).1.runnersCount
      = 1 ∧
    (List.lookup (PoolKey.oid ⟨1⟩)
      (TaskService.runnerGoroutine svcAfterRunnerOne runnerOne).1.runners)
      = some runnerOne := by
  refine ⟨?_, rfl, rfl, ?_, ?_⟩
  · intro s r
    obtain ⟨tid, runRes, cancelRes, findRes⟩ := r
    cases runRes with
    | none => rfl
    | some e => cases e <;> rfl
  · rfl
  · rfl

/-- C5: `Run` registers pool entries under a `primitive.ObjectID` key
(task.go line 209) while `Cancel` looks them up under a `string` key
(lines 233-237 and 256-259), and a Go `sync.Map` never matches keys of
different dynamic types; concretely, after identifier 7 is admitted its
pool entry is live under the ObjectID key, yet `Cancel` of its string
rendering fails with NotExists instead of delegating to the runner's
cancellation control (which would have succeeded), and `FindLogs` fails
the same way. -/
theorem cancel_misses_live_runner :
    (svc0.run ⟨7⟩ (.ok runnerSeven)).1 = none ∧
    List.lookup (PoolKey.oid ⟨7⟩) svcSeven.runners = some runnerSeven ∧
    List.lookup (PoolKey.str (ObjectID.hex ⟨7⟩)) svcSeven.runners = none ∧
    runnerSeven.cancelResult = none ∧
    svcSeven.cancel (ObjectID.hex ⟨7⟩) = some .notExists ∧
    svcSeven.findLogs (ObjectID.hex ⟨7⟩) "" 0 10 = .error .notExists := by
  refine ⟨rfl, rfl, rfl, rfl, rfl, rfl⟩

/-- C7: in any poll-loop iteration where the service is active and the
occupancy counter is at or above the configured ceiling, the iteration
skips before fetching: no Fetch, no Run, and the queues, pool, counter and
the whole world are left unchanged; the outcome is a plain continue. -/
theorem initStep_skips_at_ceiling (s : TaskService) (w : World)
    (hact : s.active = true)
    (hfull : s.runnersCount ≥ s.opts.maxRunners) :
    s.initStep w = (.next, s, w, []) := by
  simp [TaskService.initStep, hact, hfull]

/-- C7 witness: the active service with 8 occupied runners and ceiling 8
skips its iteration on the empty world. -/
theorem initStep_skips_at_ceiling_witness :
    svcFull.initStep wEmpty = (.next, svcFull, wEmpty, []) :=
  initStep_skips_at_ceiling svcFull wEmpty rfl (by decide)

/-- C2: with a node identity configured, `Fetch` pops the node's private
queue first: when that queue's head is a non-empty message `m`, the whole
call is the decode of `m` with only the node queue popped — the shared
queue's contents are untouched — and when the node-queue pop yields an
empty message leaving the broker unchanged, the call proceeds exactly as a
service with no node identity, i.e. falls back to the shared queue. -/
theorem fetch_node_queue_priority (s : TaskService) (w : World) (n : Node)
    (hn : s.opts.node = some n) :
    (∀ m rest,
      List.lookup ("tasks:node:" ++ n.id.hex) w.redis.failLPop = none →
      List.lookup ("tasks:node:" ++ n.id.hex) w.redis.queues = some (m :: rest) →
      m ≠ "" →
      s.fetch w = (TaskService.fetchDecode m w.store,
        { w with redis := { w.redis with
            queues := setQueue w.redis.queues ("tasks:node:" ++ n.id.hex) rest } }) ∧
      List.lookup "tasks:public" (s.fetch w).2.redis.queues
        = List.lookup "tasks:public" w.redis.queues) ∧
    ((w.redis.lpop ("tasks:node:" ++ n.id.hex)).1 = "" →
      (w.redis.lpop ("tasks:node:" ++ n.id.hex)).2.2 = w.redis →
      s.fetch w
        = TaskService.fetch { s with opts := { s.opts with node := none } } w) := by
  constructor
  · intro m rest hfail hq hm
    have key : w.redis.lpop ("tasks:node:" ++ n.id.hex)
        = (m, none, { w.redis with
            queues := setQueue w.redis.queues ("tasks:node:" ++ n.id.hex) rest }) := by
      simp [Redis.lpop, hfail, hq]
    have hmb : (m == "") = false := beq_eq_false_iff_ne.mpr hm
    have heq : s.fetch w = (TaskService.fetchDecode m w.store,
        { w with redis := { w.redis with
            queues := setQueue w.redis.queues ("tasks:node:" ++ n.id.hex) rest } }) := by
      simp [TaskService.fetch, hn, key, hmb]
    refine ⟨heq, ?_⟩
    rw [heq]
    exact lookup_setQueue_ne w.redis.queues ("tasks:node:" ++ n.id.hex)
      "tasks:public" rest (Ne.symm (tasksNode_ne_public n.id.hex))
  · intro h1 h2
    rcases hp : w.redis.lpop ("tasks:node:" ++ n.id.hex) with ⟨m0, e0, r1⟩
    rw [hp] at h1 h2
    simp only at h1 h2
    subst h1
    subst h2
    simp [TaskService.fetch, hn, hp]

/-- C2 witness: the node-3 service fetching from a world whose node queue
holds the message for task 5 and whose shared queue holds message "9"
returns task 5 and leaves the shared queue untouched. -/
theorem fetch_node_queue_priority_witness :
    (svcN3.fetch wNodePub).1 = .ok sampleTask ∧
    List.lookup "tasks:public" (svcN3.fetch wNodePub).2.redis.queues
      = some ["9"] := by
  have h := (fetch_node_queue_priority svcN3 wNodePub ⟨⟨3⟩⟩ rfl).1 "5" []
    rfl rfl (by decide)
  refine ⟨?_, ?_⟩
  · rw [h.1]; rfl
  · rw [h.2]; rfl

/-- C9: when the relevant pops all yield empty messages — the shared-queue
pop cleanly (no broker failure), and, if a node identity is configured,
the node-queue pop as well — `Fetch` returns the distinguished
NoTasksAvailable error, not a task and not some unrelated failure. -/
theorem fetch_both_empty_noTasksAvailable (s : TaskService) (w : World) :
    (s.opts.node = none →
      (w.redis.lpop "tasks:public").1 = "" →
      (w.redis.lpop "tasks:public").2.1 = none →
      s.fetch w = (.error .noTasksAvailable,
        { w with redis := (w.redis.lpop "tasks:public").2.2 })) ∧
    (∀ n, s.opts.node = some n →
      (w.redis.lpop ("tasks:node:" ++ n.id.hex)).1 = "" →
      (((w.redis.lpop ("tasks:node:" ++ n.id.hex)).2.2).lpop "tasks:public").1
        = "" →
      (((w.redis.lpop ("tasks:node:" ++ n.id.hex)).2.2).lpop "tasks:public").2.1
        = none →
      s.fetch w = (.error .noTasksAvailable,
        { w with redis :=
            (((w.redis.lpop ("tasks:node:" ++ n.id.hex)).2.2).lpop
              "tasks:public").2.2 })) := by
  constructor
  · intro hn h1 h2
    rcases hp : w.redis.lpop "tasks:public" with ⟨m, me, r2⟩
    rw [hp] at h1 h2
    simp only at h1 h2
    subst h1
    subst h2
    simp [TaskService.fetch, TaskService.fetchDecode, hn, hp]
  · intro n hn h1 h2 h3
    rcases hp : w.redis.lpop ("tasks:node:" ++ n.id.hex) with ⟨m0, e0, r1⟩
    rw [hp] at h1 h2 h3
    simp only at h1 h2 h3
    subst h1
    rcases hp2 : r1.lpop "tasks:public" with ⟨m1, e1, r2⟩
    rw [hp2] at h2 h3
    simp only at h2 h3
    subst h2
    subst h3
    simp [TaskService.fetch, TaskService.fetchDecode, hn, hp, hp2]

/-- C9 witness: with both queues empty, the nodeless service and the
node-3 service each get NoTasksAvailable with the world unchanged. -/
theorem fetch_both_empty_noTasksAvailable_witness :
    svcA.fetch wEmpty = (.error .noTasksAvailable, wEmpty) ∧
    svcN3.fetch wEmpty = (.error .noTasksAvailable, wEmpty) := by
  have h1 := (fetch_both_empty_noTasksAvailable svcA wEmpty).1 rfl rfl rfl
  have h2 := (fetch_both_empty_noTasksAvailable svcN3 wEmpty).2 ⟨⟨3⟩⟩ rfl
    rfl rfl rfl
  exact ⟨h1, h2⟩

/-- C10: when the node-queue pop fails with a broker error (yielding the
empty message and leaving the broker unchanged), `Fetch` silently discards
that error and behaves exactly as a service with no node identity — it
proceeds to the shared queue, and the node-pop failure is never the
returned error (the result does not depend on the injected error at
all). -/
theorem fetch_node_pop_error_discarded (s : TaskService) (n : Node)
    (w : World) (e : GoError)
    (hn : s.opts.node = some n)
    (hfail : List.lookup ("tasks:node:" ++ n.id.hex) w.redis.failLPop = some e) :
    s.fetch w
      = TaskService.fetch { s with opts := { s.opts with node := none } } w := by
  have key : w.redis.lpop ("tasks:node:" ++ n.id.hex) = ("", some e, w.redis) := by
    simp [Redis.lpop, hfail]
  simp [TaskService.fetch, hn, key]

/-- C10 witness: with an injected failure on node 3's private queue, the
node-3 service's fetch equals the nodeless fetch, and the caller sees
NoTasksAvailable (the shared queue being empty), not the broker error. -/
theorem fetch_node_pop_error_discarded_witness :
    svcN3.fetch wFailNodePop
      = TaskService.fetch { svcN3 with opts := { svcN3.opts with node := none } }
          wFailNodePop ∧
    (svcN3.fetch wFailNodePop).1 = .error .noTasksAvailable := by
  refine ⟨fetch_node_pop_error_discarded svcN3 ⟨⟨3⟩⟩ wFailNodePop
    (.other "conn reset") rfl rfl, rfl⟩

/-- C3: `Assign` on a non-master service fails with Forbidden and changes
nothing; the destination queue is `tasks:public` exactly when the task's
target node identifier is null and `tasks:node:<nodeId>` otherwise; on a
master, a failing push returns the push error with the world (broker and
store) unchanged — the Pending status is written only after the push
succeeds — and a successful push appends the serialized identifier
envelope to the destination queue and then persists the task with status
Pending. -/
theorem assign_forbidden_and_routing (s : TaskService) (t : Task) (w : World) :
    (s.opts.isMaster = false → s.assign t w = (some .forbidden, w)) ∧
    (isObjectIdNull t.nodeId = true → assignQueue t = "tasks:public") ∧
    (isObjectIdNull t.nodeId = false →
      assignQueue t = "tasks:node:" ++ t.nodeId.hex) ∧
    (s.opts.isMaster = true →
      (∀ e, List.lookup (assignQueue t) w.redis.failRPush = some e →
        s.assign t w = (some e, w)) ∧
      (List.lookup (assignQueue t) w.redis.failRPush = none →
        List.lookup (assignQueue t) (s.assign t w).2.redis.queues
          = some ((List.lookup (assignQueue t) w.redis.queues).getD []
              ++ [TaskMessage.toStr ⟨t.id⟩]) ∧
        (List.lookup t.id w.store.failGet = none →
          (s.assign t w).1 = none ∧
          List.lookup t.id (s.assign t w).2.store.records
            = some { t with status := statusPending }))) := by
  refine ⟨?_, ?_, ?_, ?_⟩
  · intro h; simp [TaskService.assign, h]
  · intro h; simp [assignQueue, h]
  · intro h; simp [assignQueue, h]
  · intro hm
    constructor
    · intro e he
      simp [TaskService.assign, hm, Redis.rpush, he]
    · intro hq
      have hpush : w.redis.rpush (assignQueue t) (TaskMessage.toStr ⟨t.id⟩) = (none, { w.redis with queues := setQueue w.redis.queues (assignQueue t) ((List.lookup (assignQueue t) w.redis.queues).getD [] ++ [TaskMessage.toStr ⟨t.id⟩]) }) := by
        simp [Redis.rpush, hq]
      rcases hsv : TaskService.saveTask t statusPending w.store with ⟨me, st'⟩
      have heq : s.assign t w = (me, { w with redis := { w.redis with queues := setQueue w.redis.queues (assignQueue t) ((List.lookup (assignQueue t) w.redis.queues).getD [] ++ [TaskMessage.toStr ⟨t.id⟩]) }, store := st' }) := by
        cases me <;> simp [TaskService.assign, hm, hpush, hsv]
      constructor
      · rw [heq]
        exact lookup_setQueue_self w.redis.queues (assignQueue t) _
      · intro hf
        have hsf := saveTask_clean t statusPending w.store hf
        rw [hsv] at hsf
        simp only at hsf
        obtain ⟨h1, h2⟩ := hsf
        subst h1
        refine ⟨by rw [heq], ?_⟩
        rw [heq]
        simpa using h2

/-- C3 witness: a worker's Assign is Forbidden and changes nothing; the
queue-name convention holds for an unassigned and a node-4 task; a failing
push to the shared queue returns the broker error with the store untouched;
a clean Assign of task 5 appends "5" to the shared queue, succeeds, and
records task 5 as Pending; a node-targeted Assign lands on
"tasks:node:4". -/
theorem assign_forbidden_and_routing_witness :
    svc0.assign sampleTask wEmpty = (some .forbidden, wEmpty) ∧
    assignQueue sampleTask = "tasks:public" ∧
    assignQueue taskB = "tasks:node:" ++ ObjectID.hex ⟨4⟩ ∧
    svcM.assign sampleTask wFailPush = (some (.other "net down"), wFailPush) ∧
    List.lookup "tasks:public" (svcM.assign sampleTask wEmpty).2.redis.queues
      = some ["5"] ∧
    (svcM.assign sampleTask wEmpty).1 = none ∧
    List.lookup (⟨5⟩ : ObjectID) (svcM.assign sampleTask wEmpty).2.store.records
      = some { sampleTask with status := statusPending } ∧
    List.lookup "tasks:node:4" (svcM.assign taskB wEmpty).2.redis.queues
      = some ["6"] := by
  have h0 := (assign_forbidden_and_routing svc0 sampleTask wEmpty).1 rfl
  have hq1 := (assign_forbidden_and_routing svcM sampleTask wEmpty).2.1 rfl
  have hq2 := (assign_forbidden_and_routing svcM taskB wEmpty).2.2.1 rfl
  have hfp := ((assign_forbidden_and_routing svcM sampleTask wFailPush).2.2.2
    rfl).1 (.other "net down") rfl
  have hok := ((assign_forbidden_and_routing svcM sampleTask wEmpty).2.2.2
    rfl).2 rfl
  have hnode := ((assign_forbidden_and_routing svcM taskB wEmpty).2.2.2
    rfl).2 rfl
  exact ⟨h0, hq1, hq2, hfp, hok.1, (hok.2 rfl).1, (hok.2 rfl).2, hnode.1⟩

/-- C6: `saveTask` normalizes an empty status to Pending (saving with ""
is the same call as saving with Pending); when the probe reports "no such
record" it inserts a new record carrying the normalized status; when the
probe succeeds it reports success, updates the existing record to the
normalized status and does not change the number of records (no
duplicate); any other probe error is returned unchanged with the store
untouched. -/
theorem saveTask_upsert (t : Task) (status : String) (st : Store) :
    (TaskService.saveTask t "" st = TaskService.saveTask t statusPending st) ∧
    (st.getById t.id = .error .noDocuments →
      TaskService.saveTask t status st = (none,
        { st with records := st.records
            ++ [(t.id, { t with status :=
                  if status == "" then statusPending else status })] })) ∧
    (∀ t0, st.getById t.id = .ok t0 →
      (TaskService.saveTask t status st).1 = none ∧
      (TaskService.saveTask t status st).2.records.length
        = st.records.length ∧
      List.lookup t.id (TaskService.saveTask t status st).2.records
        = some { t with status :=
            if status == "" then statusPending else status }) ∧
    (∀ e, st.getById t.id = .error e → e ≠ .noDocuments →
      TaskService.saveTask t status st = (some e, st)) := by
  refine ⟨rfl, ?_, ?_, ?_⟩
  · intro h
    simp [TaskService.saveTask, h, Store.add]
  · intro t0 h
    have hrec : List.lookup t.id st.records = some t0 := by
      unfold Store.getById at h
      cases hfg : List.lookup t.id st.failGet with
      | some e => rw [hfg] at h; simp at h
      | none =>
        rw [hfg] at h
        cases hlk : List.lookup t.id st.records with
        | some t1 => rw [hlk] at h; simp at h; rw [h]
        | none => rw [hlk] at h; simp at h
    refine ⟨?_, ?_, ?_⟩
    · simp [TaskService.saveTask, h, Store.save]
    · simp [TaskService.saveTask, h, Store.save, length_setRecord]
    · simp only [TaskService.saveTask, h, Store.save]
      exact lookup_setRecord_of_some st.records t.id _ t0 hrec
  · intro e h hne
    cases e with
    | noDocuments => exact absurd rfl hne
    | stopped => simp [TaskService.saveTask, h]
    | emptyValue => simp [TaskService.saveTask, h]
    | noTasksAvailable => simp [TaskService.saveTask, h]
    | forbidden => simp [TaskService.saveTask, h]
    | alreadyExists => simp [TaskService.saveTask, h]
    | notExists => simp [TaskService.saveTask, h]
    | invalidType => simp [TaskService.saveTask, h]
    | taskError => simp [TaskService.saveTask, h]
    | taskCancelled => simp [TaskService.saveTask, h]
    | other m => simp [TaskService.saveTask, h]

/-- C6 witness: on the empty store, saving task 5 with an empty status
inserts a Pending record; on a store already holding task 5, saving with
status "x" succeeds, keeps exactly one record and updates it to "x"; on a
store whose probe of identifier 5 fails with an uninterpreted error, that error is
returned and the store is unchanged. -/
theorem saveTask_upsert_witness :
    TaskService.saveTask sampleTask "" emptyStore
      = (none, { emptyStore with records := [(⟨5⟩, sampleTask)] }) ∧
    ((TaskService.saveTask sampleTask "x" stHas).1 = none ∧
      (TaskService.saveTask sampleTask "x" stHas).2.records.length = 1 ∧
      List.lookup (⟨5⟩ : ObjectID)
          (TaskService.saveTask sampleTask "x" stHas).2.records
        = some { sampleTask with status := "x" }) ∧
    TaskService.saveTask sampleTask "" stErr
      = (some (.other "db down"), stErr) := by
  have h1 := (saveTask_upsert sampleTask "" emptyStore).2.1 rfl
  have h2 := (saveTask_upsert sampleTask "x" stHas).2.2.1 sampleTask rfl
  have h3 := (saveTask_upsert sampleTask "" stErr).2.2.2 (.other "db down")
    rfl (by decide)
  refine ⟨by rw [h1]; rfl, ⟨h2.1, h2.2.1.trans rfl, h2.2.2.trans (by rfl)⟩, h3⟩

/-- C8: in an active iteration below the ceiling, a fetched task whose
identifier is the zero value terminates the loop with the EmptyValue
error; every fetch error — NoTasksAvailable included — only continues the
loop (logging all but NoTasksAvailable); and a fetched task with a
non-zero identifier also continues the loop whatever `run` returns, so an
empty fetched identifier is the only fetch-related condition that stops
the loop. -/
theorem initStep_emptyValue_only_fatal (s : TaskService) (w : World)
    (hact : s.active = true)
    (hroom : ¬ s.runnersCount ≥ s.opts.maxRunners) :
    (∀ t w', s.fetch w = (.ok t, w') → t.id.isZero = true →
      s.initStep w = (.stop .emptyValue, s, w', [])) ∧
    (∀ e w', s.fetch w = (.error e, w') →
      s.initStep w = (.next, s, w',
        if e == GoError.noTasksAvailable then []
        else ["fetch task error: " ++ e.message])) ∧
    (∀ t w', s.fetch w = (.ok t, w') → t.id.isZero = false →
      (s.initStep w).1 = .next) := by
  refine ⟨?_, ?_, ?_⟩
  · intro t w' hf hz
    simp [TaskService.initStep, hact, hroom, hf, hz]
  · intro e w' hf
    by_cases he : e = .noTasksAvailable
    · subst he
      simp [TaskService.initStep, hact, hroom, hf]
    · have heb : (e == GoError.noTasksAvailable) = false :=
        beq_eq_false_iff_ne.mpr he
      simp [TaskService.initStep, hact, hroom, hf, heb]
  · intro t w' hf hz
    rcases hr : s.run t.id (w'.mkRunner ⟨t.id⟩) with ⟨me, s'⟩
    cases me <;> simp [TaskService.initStep, hact, hroom, hf, hz, hr]

/-- C8 witness: on the world whose shared queue resolves to the zero-id
record the active idle service's iteration stops with EmptyValue; on the
empty world (fetch yields NoTasksAvailable) it continues; on the world
resolving to task 5 it also continues. -/
theorem initStep_emptyValue_only_fatal_witness :
    (svcA.initStep wZero).1 = .stop .emptyValue ∧
    (svcA.initStep wEmpty).1 = .next ∧
    (svcA.initStep wGood).1 = .next := by
  have h1 := (initStep_emptyValue_only_fatal svcA wZero rfl (by decide)).1
    taskZero (svcA.fetch wZero).2 rfl rfl
  have h2 := (initStep_emptyValue_only_fatal svcA wEmpty rfl (by decide)).2.1
    .noTasksAvailable (svcA.fetch wEmpty).2 rfl
  have h3 := (initStep_emptyValue_only_fatal svcA wGood rfl (by decide)).2.2
    sampleTask (svcA.fetch wGood).2 rfl rfl
  exact ⟨by rw [h1], by rw [h2], h3⟩

end Crawlab
